import Mathlib

/-!
Verification of the JoFotara e-invoicing transformation engine
(`erpnext_jofotara/api/transform.py` and `erpnext_jofotara/api/invoices.py`)
against its natural-language specification.

The Python source is shallowly embedded: `Decimal` values become `ℚ`
(Python `Decimal` arithmetic on the 3-decimal values that occur here is
exact rational arithmetic; the 28-significant-digit division context never
matters for the quantities proved about, and where a claim depends on a
concrete value the embedded computation is exact), invoice records become
Lean structures whose fields are the fields the Python code reads
(external `frappe` lookups of company / customer master data are modelled
as already-resolved input fields), `frappe.throw` becomes `Except.error`,
and the emitted XML is modelled structurally (the sequence of top-level
child elements, plus the numeric fields the claims mention).
-/

namespace JoFotara

/-! ## Numeric engine (`_q3` in transform.py, `_q` in invoices.py)

`Decimal(...).quantize(Decimal("0.001"), rounding=ROUND_HALF_UP)` rounds a
rational to 3 decimal places, half away from zero on ties. -/

/-- `Decimal.quantize(Decimal("0.001"), rounding=ROUND_HALF_UP)` on an exact
rational: 3-decimal rounding, ties away from zero. -/
def q3 (x : ℚ) : ℚ :=
  (if 0 ≤ x then (⌊1000 * x + 1/2⌋ : ℚ) else -(⌊-(1000 * x) + 1/2⌋ : ℚ)) / 1000

/-- A rational that is an exact 3-decimal value (an integer number of
thousandths), i.e. a value the Python code has already passed through
`_q3` / `_q` or built as a sum of such values. -/
def Grid3 (x : ℚ) : Prop := ∃ n : ℤ, x = (n : ℚ) / 1000

theorem Grid3.zero : Grid3 0 := ⟨0, by norm_num⟩

theorem Grid3.add {x y : ℚ} (hx : Grid3 x) (hy : Grid3 y) : Grid3 (x + y) := by
  obtain ⟨n, rfl⟩ := hx
  obtain ⟨m, rfl⟩ := hy
  exact ⟨n + m, by push_cast; ring⟩

theorem Grid3.neg {x : ℚ} (hx : Grid3 x) : Grid3 (-x) := by
  obtain ⟨n, rfl⟩ := hx
  exact ⟨-n, by push_cast; ring⟩

theorem Grid3.sub {x y : ℚ} (hx : Grid3 x) (hy : Grid3 y) : Grid3 (x - y) := by
  simpa [sub_eq_add_neg] using hx.add hy.neg

theorem grid3_q3 (x : ℚ) : Grid3 (q3 x) := by
  unfold q3
  split
  · exact ⟨⌊1000 * x + 1/2⌋, rfl⟩
  · exact ⟨-⌊-(1000 * x) + 1/2⌋, by push_cast; ring⟩

/-- Quantizing an exact 3-decimal value is the identity. -/
theorem q3_of_grid3 {x : ℚ} (hx : Grid3 x) : q3 x = x := by
  obtain ⟨n, rfl⟩ := hx
  unfold q3
  have h1000 : ((1000 : ℚ)) ≠ 0 := by norm_num
  have hmul : (1000 : ℚ) * ((n : ℚ) / 1000) = (n : ℚ) := by field_simp
  split
  · rw [hmul]
    have : ⌊(n : ℚ) + 1/2⌋ = n := by
      rw [add_comm, Int.floor_add_int]
      norm_num
    rw [this]
  · rw [hmul]
    have : ⌊-(n : ℚ) + 1/2⌋ = -n := by
      have : -(n : ℚ) + 1/2 = 1/2 + (-n : ℤ) := by push_cast; ring
      rw [this, Int.floor_add_int]
      norm_num
    rw [this]
    push_cast
    ring

theorem grid3_listSum {l : List ℚ} (h : ∀ x ∈ l, Grid3 x) : Grid3 l.sum := by
  induction l with
  | nil => simpa using Grid3.zero
  | cons a t ih =>
      rw [List.sum_cons]
      exact (h a (by simp)).add (ih fun x hx => h x (by simp [hx]))

/-! ## Python value model for the quantization entry points (claim C5)

`_q3(x)` in transform.py is `Decimal(str(x or 0)).quantize(...)` with **no**
exception handler; `_q(x)` in invoices.py is `Decimal(str(x)).quantize(...)`
wrapped in `try/except` returning `Decimal("0.000")`. The dynamic argument
is modelled by `PyVal`; `Decimal(str(·))` is modelled by `decimalOfPy`,
which parses plain decimal literals (optional sign, digits, optional
fractional part) — exactly the strings `str()` produces for the numeric
field values of an invoice record — and fails on anything else, as
`Decimal("abc")` raises `InvalidOperation`. -/

inductive PyVal where
  | none : PyVal
  | num : ℚ → PyVal
  | str : String → PyVal
deriving DecidableEq

/-- Python truthiness for the values `_q3`'s `x or 0` can see. -/
def pyTruthy : PyVal → Bool
  | .none => false
  | .num q => q ≠ 0
  | .str s => s ≠ ""

/-- Python `x or 0`. -/
def pyOrZero (x : PyVal) : PyVal := if pyTruthy x then x else .num 0

/-- Parse the digit run of a plain decimal literal. -/
def parseDigits : List Char → Option ℕ
  | [] => Option.none
  | cs =>
      if cs.all Char.isDigit then
        Option.some (cs.foldl (fun acc c => 10 * acc + (c.toNat - 48)) 0)
      else Option.none

/-- `Decimal(s)` for a plain decimal literal `[+-]digits[.digits]`
(with at least one digit overall); everything else raises, modelled as
`Option.none`. -/
def parseDecimalLit (s : String) : Option ℚ :=
  let cs := s.data
  let (sign, rest) :=
    match cs with
    | '-' :: t => ((-1 : ℚ), t)
    | '+' :: t => ((1 : ℚ), t)
    | t => ((1 : ℚ), t)
  let intPart := rest.takeWhile (· ≠ '.')
  let fracPart := rest.dropWhile (· ≠ '.')
  match fracPart with
  | [] =>
      match parseDigits intPart with
      | Option.some n => Option.some (sign * (n : ℚ))
      | Option.none => Option.none
  | '.' :: fs =>
      if intPart.isEmpty ∧ fs.isEmpty then Option.none
      else
        let ip := if intPart.isEmpty then Option.some 0 else parseDigits intPart
        let fp := if fs.isEmpty then Option.some 0 else parseDigits fs
        match ip, fp with
        | Option.some n, Option.some f =>
            Option.some (sign * ((n : ℚ) + (f : ℚ) / (10 : ℚ) ^ fs.length))
        | _, _ => Option.none
  | _ => Option.none

/-- `Decimal(str(x))` on a `PyVal`: numbers convert exactly, strings are
parsed as decimal literals, `None` fails (`Decimal("None")` raises). -/
def decimalOfPy : PyVal → Option ℚ
  | .none => Option.none
  | .num q => Option.some q
  | .str s => parseDecimalLit s

/-- transform.py `_q3`: `Decimal(str(x or 0)).quantize(Q3, ROUND_HALF_UP)`,
no exception handler — a parse failure propagates as an exception. -/
def q3Py (x : PyVal) : Except Unit ℚ :=
  match decimalOfPy (pyOrZero x) with
  | Option.some q => .ok (q3 q)
  | Option.none => .error ()

/-- invoices.py `_q`: same quantization but any exception is caught and
`Decimal("0.000")` is returned. -/
def qPy (x : PyVal) : ℚ :=
  match decimalOfPy x with
  | Option.some q => q3 q
  | Option.none => 0

/-! ## String utilities

`re.sub(r"\D", "", s)` keeps only digit characters; `in` on strings is
substring containment; `.lower()` and `.strip()` are modelled by
`lowerAscii` / `pyStrip` above. -/

/-- `re.sub(r"\D", "", s)`: drop every non-digit character (the tax
numbers and activity numbers the code normalizes are ASCII). -/
def digitsOnly (s : String) : String := ⟨s.data.filter Char.isDigit⟩

/-- `str.lower()` (the keys and payment modes the code lowercases are
ASCII; Arabic letters have no case and pass through unchanged). -/
def lowerAscii (s : String) : String :=
  ⟨s.data.map (fun c =>
    if 'A' ≤ c ∧ c ≤ 'Z' then Char.ofNat (c.toNat + 32) else c)⟩

/-- ASCII whitespace, as `str.strip()` removes. -/
def isWs (c : Char) : Bool := c = ' ' || c = '\t' || c = '\n' || c = '\r'

/-- `str.strip()`. -/
def pyStrip (s : String) : String :=
  ⟨((s.data.dropWhile isWs).reverse.dropWhile isWs).reverse⟩

/-- Substring containment on character lists (Python `pat in s`). -/
def hasSubseg (pat : List Char) : List Char → Bool
  | [] => pat.isEmpty
  | c :: t => pat.isPrefixOf (c :: t) || hasSubseg pat t

/-- Python `pat in s` for strings. -/
def strHas (s pat : String) : Bool := hasSubseg pat.data s.data

/-! ## Data model

One structure per record kind, holding exactly the fields the Python code
reads. Master-data indirections (`frappe.get_doc("Company", ...)`,
`frappe.db.get_value`) are modelled as already-resolved fields on the
invoice: `companyTaxId` is the company's tax id as the lookup returns it.
Fields irrelevant to every claim (item names, unit-of-measure labels,
addresses, phone numbers) are omitted. `item_tax_rate` is stored
post-JSON-parse, as the association list `_parse_item_tax_rates` returns
(keys lowercased by the parser, values as floats, read in dict order). -/

structure Item where
  qty : ℚ
  rate : ℚ
  netRate : ℚ
  amount : ℚ
  netAmount : ℚ
  discountAmount : ℚ
  itemTaxRates : List (String × ℚ)
deriving DecidableEq

structure SalesInvoice where
  name : String
  currency : String
  remarks : String
  isReturn : Int
  returnAgainst : String
  baseGrandTotal : ℚ
  outstandingAmount : ℚ
  paidAmount : ℚ
  grandTotal : ℚ
  isPos : Bool
  discountAmount : ℚ
  totalTaxesAndCharges : ℚ
  roundedTotal : ℚ
  roundingAdjustment : ℚ
  jofotaraUuid : String
  jofotaraIcv : Int
  hasUuidField : Bool
  hasIcvField : Bool
  companyName : String
  companyTaxId : String
  customerTaxId : String
  paymentModes : List String
  taxRates : List ℚ
  items : List Item
deriving DecidableEq

structure Settings where
  activityNumber : String
  sellerTaxNumber : String
deriving DecidableEq

/-! ## transform.py helpers -/

/-- `_get_company_info`: company tax id, falling back to the settings'
seller tax number when the company record has none. No validation. -/
def companyTax (s : Settings) (inv : SalesInvoice) : String :=
  let t := pyStrip inv.companyTaxId
  if t ≠ "" then t else pyStrip s.sellerTaxNumber

/-- `_payment_method_code`: `"011"` (cash) when the outstanding amount is
`<= 0.0001` or the invoice is POS, else `"021"` (credit). -/
def paymentMethodCode (inv : SalesInvoice) : String :=
  if decide (inv.outstandingAmount ≤ 1/10000) || inv.isPos then "011" else "021"

/-- `_is_credit`: `is_return == 1`, or truthy `return_against`, or a
negative `base_grand_total`. -/
def isCredit (inv : SalesInvoice) : Bool :=
  (inv.isReturn == 1) || (inv.returnAgainst != "") || decide (inv.baseGrandTotal < 0)

/-- `uuid.uuid5(NAMESPACE_DNS, key)` is a pure deterministic hash of its
key; the claims only depend on that determinism, so it is modelled as an
(injective on these keys) deterministic string function. -/
def uuid5 (key : String) : String := "uuid5-" ++ key

/-- `_invoice_uuid`: the stored `jofotara_uuid` (stripped) when non-empty,
else the name-based `uuid5` value. Pure; nothing is persisted here. -/
def invoiceUuid (inv : SalesInvoice) : String :=
  let ex := pyStrip inv.jofotaraUuid
  if ex ≠ "" then ex else uuid5 ("Sales Invoice:" ++ inv.name)

/-- `net_amount or amount or 0` on an item. -/
def baseNetAmount (it : Item) : ℚ :=
  if it.netAmount ≠ 0 then it.netAmount else it.amount

/-- `net_rate or rate or 0` on an item. -/
def baseNetRate (it : Item) : ℚ :=
  if it.netRate ≠ 0 then it.netRate else it.rate

/-- `sum_net_base`: sum of the lines' pre-discount net amounts. -/
def sumNetBase (inv : SalesInvoice) : ℚ := (inv.items.map baseNetAmount).sum

/-- The rate-classification loop over the parsed `item_tax_rate` dict:
a key containing "special"/"خاص" sets the special rate, else a key
containing "vat"/"value"/"ضريبة" sets the VAT rate; later entries
overwrite earlier ones. Returns `(vatRate, specialRate)`. -/
def rateFold (rates : List (String × ℚ)) : ℚ × ℚ :=
  rates.foldl
    (fun acc kv =>
      let lk := lowerAscii kv.1
      if strHas lk "special" || strHas lk "خاص" then (acc.1, kv.2)
      else if strHas lk "vat" || strHas lk "value" || strHas lk "ضريبة" then (kv.2, acc.2)
      else acc)
    (0, 0)

/-- `default_ratio = total_taxes_and_charges / sum_net_base` when both are
positive, else 0 (used as a document-wide fallback VAT ratio). -/
def defaultRatio (inv : SalesInvoice) : ℚ :=
  if sumNetBase inv > 0 ∧ inv.totalTaxesAndCharges > 0 then
    inv.totalTaxesAndCharges / sumNetBase inv
  else 0

/-- One entry of the `prepped` list built by the per-line loop of
`build_invoice_xml`. -/
structure PreppedLine where
  qty : ℚ
  proRata : ℚ
  lineExcl : ℚ
  vatPercent : ℚ
  specialPercent : ℚ
  lineVat : ℚ
  lineSpecial : ℚ
  priceAfterDisc : ℚ
  lineDiscTotal : ℚ
deriving DecidableEq

/-- The body of the per-line loop, given the line's allocated pro-rata
discount share. -/
def mkLine (defR : ℚ) (it : Item) (pro : ℚ) : PreppedLine :=
  let qty := q3 it.qty
  let bNA := baseNetAmount it
  let lineDiscField := it.discountAmount
  let rawExcl := bNA - lineDiscField - pro
  let lineExcl := q3 (if rawExcl < 0 then 0 else rawExcl)
  let r := rateFold it.itemTaxRates
  let vatRate := if r.1 = 0 ∧ r.2 = 0 ∧ defR > 0 then defR * 100 else r.1
  let splRate := r.2
  { qty := qty
    proRata := pro
    lineExcl := lineExcl
    vatPercent := vatRate
    specialPercent := splRate
    lineVat := q3 (lineExcl * (vatRate / 100))
    lineSpecial := q3 (lineExcl * (splRate / 100))
    priceAfterDisc := q3 (if qty > 0 then lineExcl / qty else baseNetRate it)
    lineDiscTotal := q3 (lineDiscField + pro) }

/-- The allocating loop when `inv_disc > 0 and sum_net_base > 0`: every
line except the last gets `round3(net_i / Σn * D)` (subtracted from the
running `disc_left`), the last line gets `disc_left` clamped below at 0.
The Python loop's `idx < len(items)` test is exactly the "not the last
element" test. -/
def prepAlloc (defR S D : ℚ) : List Item → ℚ → List PreppedLine
  | [], _ => []
  | [it], discLeft => [mkLine defR it (if discLeft > 0 then discLeft else 0)]
  | it :: it2 :: rest, discLeft =>
      let pro := q3 (baseNetAmount it / S * D)
      mkLine defR it pro :: prepAlloc defR S D (it2 :: rest) (discLeft - pro)

/-- The per-line loop of `build_invoice_xml`: pro-rata allocation happens
only when the document discount and the pre-discount net sum are both
positive, otherwise every line's share is 0. -/
def prepLines (inv : SalesInvoice) : List PreppedLine :=
  if inv.discountAmount > 0 ∧ sumNetBase inv > 0 then
    prepAlloc (defaultRatio inv) (sumNetBase inv) inv.discountAmount
      inv.items inv.discountAmount
  else inv.items.map (fun it => mkLine (defaultRatio inv) it 0)

/-- Top-level child elements of the serialized `<Invoice>` document, in
emission order. `billingReference` (a UBL credit-note back-reference) is
in the vocabulary so its absence can be stated; `build_invoice_xml` never
emits it. -/
inductive Tag where
  | cbcId | cbcUuid | issueDate | invoiceTypeCode | note
  | documentCurrencyCode | taxCurrencyCode | additionalDocumentReference
  | accountingSupplierParty | accountingCustomerParty | sellerSupplierParty
  | billingReference | taxTotal | legalMonetaryTotal | invoiceLine
deriving DecidableEq

/-- One `<cac:TaxSubtotal>` of the header `<cac:TaxTotal>` block. -/
structure Subtotal where
  scheme : String
  taxable : ℚ
  amount : ℚ
deriving DecidableEq

/-- The built document: the fields of the serialized XML that the claims
mention, plus the top-level element order. -/
structure BuiltDoc where
  invTypeCode : String
  payCode : String
  uuid : String
  supplierTax : String
  lines : List PreppedLine
  taxExclusive : ℚ
  totalVat : ℚ
  totalSpecial : ℚ
  taxableVatSum : ℚ
  taxableSpecialSum : ℚ
  taxTotalAmt : ℚ
  taxInclusive : ℚ
  payableRounding : ℚ
  payableAmount : ℚ
  headerSubtotals : List Subtotal
  children : List Tag
deriving DecidableEq

/-! The aggregates of `build_invoice_xml`, one definition per local
variable of the Python function. The serialized strings are modelled
structurally: `children` is the sequence of top-level XML elements in
emission order, `headerSubtotals` the subtotals of the header tax-total
block. -/

/-- `total_excl`: sum of the lines' net-after-discount amounts. -/
def totalExclOf (inv : SalesInvoice) : ℚ :=
  ((prepLines inv).map PreppedLine.lineExcl).sum

/-- `total_vat`: sum of the per-line VAT amounts. -/
def totalVatOf (inv : SalesInvoice) : ℚ :=
  ((prepLines inv).map PreppedLine.lineVat).sum

/-- `total_special`: sum of the per-line special-tax amounts. -/
def totalSpecialOf (inv : SalesInvoice) : ℚ :=
  ((prepLines inv).map PreppedLine.lineSpecial).sum

/-- `taxable_vat_sum`: net amounts of the lines with a positive VAT rate. -/
def taxableVatSumOf (inv : SalesInvoice) : ℚ :=
  (((prepLines inv).filter (fun L => decide (L.vatPercent > 0))).map
    PreppedLine.lineExcl).sum

/-- `taxable_special_sum`: net amounts of the lines with a positive
special rate. -/
def taxableSpecialSumOf (inv : SalesInvoice) : ℚ :=
  (((prepLines inv).filter (fun L => decide (L.specialPercent > 0))).map
    PreppedLine.lineExcl).sum

/-- `tax_exclusive = _q3(total_excl)`. -/
def taxExclusiveOf (inv : SalesInvoice) : ℚ := q3 (totalExclOf inv)

/-- `tax_total = _q3(total_vat + total_special)`. -/
def taxTotalAmtOf (inv : SalesInvoice) : ℚ :=
  q3 (totalVatOf inv + totalSpecialOf inv)

/-- `tax_inclusive = _q3(tax_exclusive + tax_total)`. -/
def taxInclusiveOf (inv : SalesInvoice) : ℚ :=
  q3 (taxExclusiveOf inv + taxTotalAmtOf inv)

/-- `use_rounding`: the record carries a non-zero rounded total or
rounding adjustment. -/
def useRounding (inv : SalesInvoice) : Prop :=
  inv.roundedTotal ≠ 0 ∨ inv.roundingAdjustment ≠ 0

instance (inv : SalesInvoice) : Decidable (useRounding inv) := by
  unfold useRounding
  infer_instance

/-- `payable_rounding = _q3(rounded_total - tax_inclusive)` when rounding
is in use, else exactly 0. -/
def payableRoundingOf (inv : SalesInvoice) : ℚ :=
  if useRounding inv then q3 (inv.roundedTotal - taxInclusiveOf inv) else 0

/-- `payable_amount`: the rounded total when rounding is in use, else the
tax-inclusive amount (both quantized). -/
def payableAmountOf (inv : SalesInvoice) : ℚ :=
  if useRounding inv then q3 inv.roundedTotal else q3 (taxInclusiveOf inv)

/-- The header `<cac:TaxTotal>` subtotals: the VAT subtotal is emitted
unconditionally; the Special subtotal only when `total_special > 0`. -/
def headerSubtotalsOf (inv : SalesInvoice) : List Subtotal :=
  { scheme := "VAT", taxable := taxableVatSumOf inv, amount := totalVatOf inv } ::
    (if totalSpecialOf inv > 0 then
      [{ scheme := "Special", taxable := taxableSpecialSumOf inv,
         amount := totalSpecialOf inv }]
    else [])

/-- The top-level children of the serialized `<Invoice>`, in emission
order: identity fields, the optional note, currency codes, the ICV
document reference, supplier party, customer party, the activity-number
party, the tax total, the monetary total, then one `InvoiceLine` per item. -/
def childrenOf (inv : SalesInvoice) : List Tag :=
  [Tag.cbcId, Tag.cbcUuid, Tag.issueDate, Tag.invoiceTypeCode] ++
    (if pyStrip inv.remarks ≠ "" then [Tag.note] else []) ++
    [Tag.documentCurrencyCode, Tag.taxCurrencyCode,
     Tag.additionalDocumentReference, Tag.accountingSupplierParty,
     Tag.accountingCustomerParty, Tag.sellerSupplierParty,
     Tag.taxTotal, Tag.legalMonetaryTotal] ++
    List.replicate inv.items.length Tag.invoiceLine

/-- The document `build_invoice_xml` assembles once past its only guard. -/
def buildCore (s : Settings) (inv : SalesInvoice) : BuiltDoc :=
  { invTypeCode := if isCredit inv then "381" else "388"
    payCode := paymentMethodCode inv
    uuid := invoiceUuid inv
    supplierTax := companyTax s inv
    lines := prepLines inv
    taxExclusive := taxExclusiveOf inv
    totalVat := totalVatOf inv
    totalSpecial := totalSpecialOf inv
    taxableVatSum := taxableVatSumOf inv
    taxableSpecialSum := taxableSpecialSumOf inv
    taxTotalAmt := taxTotalAmtOf inv
    taxInclusive := taxInclusiveOf inv
    payableRounding := payableRoundingOf inv
    payableAmount := payableAmountOf inv
    headerSubtotals := headerSubtotalsOf inv
    children := childrenOf inv }

/-- `build_invoice_xml` (transform.py). Throws only when the settings'
activity number has no digits; otherwise it always produces a document. -/
def buildInvoiceXml (s : Settings) (inv : SalesInvoice) : Except String BuiltDoc :=
  if digitsOnly s.activityNumber = "" then
    .error "JoFotara Settings: Activity Number required (digits only)."
  else .ok (buildCore s inv)

theorem buildInvoiceXml_ok {s : Settings} {inv : SalesInvoice} {d : BuiltDoc}
    (hb : buildInvoiceXml s inv = .ok d) : d = buildCore s inv := by
  unfold buildInvoiceXml at hb
  split at hb
  · exact absurd hb (by simp)
  · exact (Except.ok.inj hb).symm

theorem buildInvoiceXml_ok_of {s : Settings} (inv : SalesInvoice)
    (h : digitsOnly s.activityNumber ≠ "") :
    buildInvoiceXml s inv = .ok (buildCore s inv) := by
  unfold buildInvoiceXml
  rw [if_neg h]

/-! ## invoices.py -/

/-- The payment-mode labels `_is_cash_invoice` treats as cash-like. -/
def cashModes : List String :=
  ["cash", "bank", "card", "visa", "mastercard", "credit card", "debit card"]

/-- `_is_cash_invoice`: POS, or paid covers grand total up to 1e-3, or
outstanding within 1e-3 of zero, or any payment row whose
`mode_of_payment` (stripped, lowercased) is cash-like. -/
def isCashInvoice (inv : SalesInvoice) : Bool :=
  inv.isPos ||
    decide (inv.paidAmount ≥ inv.grandTotal - 1/1000) ||
    decide (|inv.outstandingAmount| < 1/1000) ||
    inv.paymentModes.any (fun m => cashModes.contains (lowerAscii (pyStrip m)))

/-- The raw seller tax number `_seller_info` resolves: the invoice /
company value (modelled as the resolved `companyTaxId`) with the
settings' seller tax number as fallback, stripped. -/
def sellerTaxRaw (s : Settings) (inv : SalesInvoice) : String :=
  pyStrip (if inv.companyTaxId ≠ "" then inv.companyTaxId else s.sellerTaxNumber)

/-- `re.sub(r"\D", "", supplier_tax_raw)`: the digit-normalized seller
tax number `_seller_info` validates. -/
def sellerTaxDigits (s : Settings) (inv : SalesInvoice) : String :=
  digitsOnly (sellerTaxRaw s inv)

/-- `_seller_info`: normalize the seller tax number and `frappe.throw`
unless the digit string has length 1–15. -/
def sellerInfo (s : Settings) (inv : SalesInvoice) : Except String (String × String) :=
  if 1 ≤ (sellerTaxDigits s inv).length ∧ (sellerTaxDigits s inv).length ≤ 15 then
    .ok (inv.companyName, sellerTaxDigits s inv)
  else .error "Seller Tax Number is required (1-15 digits)."

/-- `_uuid_icv`, step 1: the UUID — the stored `jofotara_uuid` when truthy,
else the caller-supplied fresh `frappe.generate_hash` value. -/
def uuidOf (inv : SalesInvoice) (fresh : String) : String :=
  if inv.jofotaraUuid ≠ "" then inv.jofotaraUuid else fresh

/-- `_uuid_icv`, step 2: persist the UUID onto the record when the record
lacks one and the custom field exists (`db_set`). -/
def persistUuid (inv : SalesInvoice) (fresh : String) : SalesInvoice :=
  if inv.jofotaraUuid = "" ∧ inv.hasUuidField then
    { inv with jofotaraUuid := uuidOf inv fresh }
  else inv

/-- `_uuid_icv`, step 3: `icv = int(jofotara_icv or 1)`. -/
def icvOf (inv : SalesInvoice) (fresh : String) : Int :=
  if (persistUuid inv fresh).jofotaraIcv = 0 then 1
  else (persistUuid inv fresh).jofotaraIcv

/-- `_uuid_icv`, step 4: persist the ICV when the field exists and the
record has none. -/
def persistIcv (inv : SalesInvoice) (fresh : String) : SalesInvoice :=
  if (persistUuid inv fresh).hasIcvField ∧ (persistUuid inv fresh).jofotaraIcv = 0 then
    { persistUuid inv fresh with jofotaraIcv := icvOf inv fresh }
  else persistUuid inv fresh

/-- `_uuid_icv`: the `(uuid, icv)` pair plus the (possibly) updated record. -/
def uuidIcv (inv : SalesInvoice) (fresh : String) : (String × Int) × SalesInvoice :=
  ((uuidOf inv fresh, icvOf inv fresh), persistIcv inv fresh)

/-- One line of `generate_ubl_xml_sales`: `base = _q(qty*rate - disc)`,
`tax = _q(base * rate%/100)` — note `it.qty or 1` defaults a zero
quantity to 1 there. -/
def salesLine (taxRate : ℚ) (it : Item) : ℚ × ℚ :=
  let qty := q3 (if it.qty ≠ 0 then it.qty else 1)
  let rate := q3 it.rate
  let lineDisc := q3 it.discountAmount
  let base := q3 (qty * rate - lineDisc)
  (base, q3 (base * (taxRate / 100)))

/-- The result fields of `generate_ubl_xml_sales` the claims mention. -/
structure SalesBuilt where
  typeName : String
  typeCode : String
  uuid : String
  icv : Int
  supplierName : String
  supplierTax : String
  taxRate : ℚ
  netTotal : ℚ
  taxTotal : ℚ
  grandTotal : ℚ
deriving DecidableEq

/-- The tax rate `generate_ubl_xml_sales` uses: the first positive rate of
the invoice's tax table (quantized), forced to 16% when there is none or
when quantization collapses it to zero. -/
def salesTaxRate (inv : SalesInvoice) : ℚ :=
  match inv.taxRates.find? (fun r => decide (r > 0)) with
  | Option.some r => if q3 r ≤ 0 then 16 else q3 r
  | Option.none => 16

/-- The document `generate_ubl_xml_sales` assembles once `_seller_info`
has succeeded with the pair `st`. -/
def salesCore (inv : SalesInvoice) (fresh : String) (st : String × String) :
    SalesBuilt :=
  { typeName := if isCashInvoice inv then "011" else "021"
    typeCode := "388"
    uuid := (uuidIcv inv fresh).1.1
    icv := (uuidIcv inv fresh).1.2
    supplierName := st.1
    supplierTax := st.2
    taxRate := salesTaxRate inv
    netTotal := ((inv.items.map (salesLine (salesTaxRate inv))).map Prod.fst).sum
    taxTotal := ((inv.items.map (salesLine (salesTaxRate inv))).map Prod.snd).sum
    grandTotal := ((inv.items.map (salesLine (salesTaxRate inv))).map
      (fun bt => q3 (bt.1 + bt.2))).sum }

/-- `generate_ubl_xml_sales` (invoices.py): single-rate VAT document.
Fails exactly when `_seller_info` throws. `fresh` stands for the
`frappe.generate_hash` value consumed if a UUID must be minted. -/
def generateUblXmlSales (s : Settings) (inv : SalesInvoice) (fresh : String) :
    Except String SalesBuilt :=
  match sellerInfo s inv with
  | .error e => .error e
  | .ok st => .ok (salesCore inv fresh st)

/-! ## handle_submit_response (invoices.py) -/

/-- A JSON value of the provider response (flat dictionaries suffice for
what `handle_submit_response` inspects). -/
inductive JVal where
  | jnull : JVal
  | jstr : String → JVal
  | jnum : Int → JVal
  | jbool : Bool → JVal
deriving DecidableEq

/-- Python truthiness of a JSON value. -/
def jTruthy : JVal → Bool
  | .jnull => false
  | .jstr s => s ≠ ""
  | .jnum n => n ≠ 0
  | .jbool b => b

/-- `resp.get(k)`: `None` (modelled `Option.none`) when absent. -/
def jGet (resp : List (String × JVal)) (k : String) : Option JVal :=
  (resp.find? (fun kv => kv.1 = k)).map Prod.snd

/-- Truthiness of a `resp.get` result (`None` is falsy). -/
def jTruthyO : Option JVal → Bool
  | Option.none => false
  | Option.some v => jTruthy v

/-- Python `a or b or c or ...` over `resp.get` results: the first truthy
value, else the last (falsy) one. -/
def pyOrChain : List (Option JVal) → Option JVal
  | [] => Option.none
  | [v] => v
  | v :: t => if jTruthyO v then v else pyOrChain t

/-- Serialization of a JSON value, as in the `frappe.as_json` blob the
status test searches (string escaping is irrelevant to the claims). -/
def jValStr : JVal → String
  | .jnull => "null"
  | .jstr s => "\"" ++ s ++ "\""
  | .jnum n => toString n
  | .jbool b => if b then "true" else "false"

/-- `frappe.as_json` on a flat dictionary. -/
def jsonOf (resp : List (String × JVal)) : String :=
  "\x7b" ++
    String.intercalate ", "
      (resp.map (fun kv => "\"" ++ kv.1 ++ "\": " ++ jValStr kv.2)) ++
    "\x7d"

/-- The uuid-like keys probed by `handle_submit_response`, in order. -/
def uuidKeys : List String := ["uuid", "invoiceUUID", "invoice_uuid", "id"]

/-- The qr-like keys probed by `handle_submit_response`, in order. -/
def qrKeys : List String := ["qr", "qrCode", "qr_code", "qrcode"]

/-- The status `handle_submit_response` writes to `jofotara_status`:
`"Submitted"` when the uuid-chain or qr-chain is truthy or `"success"`
occurs in the lowercased serialized body, else `"Error"`. -/
def submitStatus (resp : List (String × JVal)) : String :=
  let uuidV := pyOrChain (uuidKeys.map (jGet resp))
  let qrV := pyOrChain (qrKeys.map (jGet resp))
  if jTruthyO uuidV || jTruthyO qrV || strHas (lowerAscii (jsonOf resp)) "success" then
    "Submitted"
  else "Error"

/-! ## Supporting lemmas about the builder -/

theorem mkLine_proRata (defR : ℚ) (it : Item) (pro : ℚ) :
    (mkLine defR it pro).proRata = pro := rfl

/-- The pro-rata share of a non-last line: `round3(net_i / Σn * D)`. -/
def nonLastShare (S D : ℚ) (it : Item) : ℚ := q3 (baseNetAmount it / S * D)

/-- Sum of the rounded shares of all lines but the last. -/
def nonLastShareSum (inv : SalesInvoice) : ℚ :=
  ((inv.items.dropLast).map
    (nonLastShare (sumNetBase inv) inv.discountAmount)).sum

/-- `disc_left if disc_left > 0 else 0`. -/
def clampPos (x : ℚ) : ℚ := if x > 0 then x else 0

theorem clampPos_of_nonneg {x : ℚ} (h : 0 ≤ x) : clampPos x = x := by
  unfold clampPos
  split
  · rfl
  · next hx => exact (le_antisymm (not_lt.mp hx) h).symm

theorem prepAlloc_proRata_sum (defR S D : ℚ) :
    ∀ (items : List Item) (dl : ℚ), items ≠ [] →
      ((prepAlloc defR S D items dl).map PreppedLine.proRata).sum
        = (items.dropLast.map (nonLastShare S D)).sum
            + clampPos (dl - (items.dropLast.map (nonLastShare S D)).sum) := by
  intro items
  induction items with
  | nil => intro dl h; exact absurd rfl h
  | cons it rest ih =>
      intro dl _
      cases rest with
      | nil =>
          simp [prepAlloc, clampPos, mkLine_proRata]
      | cons it2 rest2 =>
          have hne : it2 :: rest2 ≠ [] := by simp
          have hrec := ih dl (by simp)
          simp only [prepAlloc, List.map_cons, List.sum_cons, mkLine_proRata]
          rw [ih (dl - q3 (baseNetAmount it / S * D)) hne]
          have hdrop : (it :: it2 :: rest2).dropLast = it :: (it2 :: rest2).dropLast := by
            simp [List.dropLast]
          rw [hdrop]
          simp only [List.map_cons, List.sum_cons, nonLastShare]
          have harg : dl - q3 (baseNetAmount it / S * D)
                - (((it2 :: rest2).dropLast).map (nonLastShare S D)).sum
              = dl - (q3 (baseNetAmount it / S * D)
                + (((it2 :: rest2).dropLast).map (nonLastShare S D)).sum) := by ring
          rw [harg]
          ring

theorem prepAlloc_mem (defR S D : ℚ) :
    ∀ (items : List Item) (dl : ℚ) (L : PreppedLine),
      L ∈ prepAlloc defR S D items dl → ∃ it pro, L = mkLine defR it pro := by
  intro items
  induction items with
  | nil => intro dl L h; simp [prepAlloc] at h
  | cons it rest ih =>
      intro dl L h
      cases rest with
      | nil =>
          simp [prepAlloc] at h
          exact ⟨it, _, h⟩
      | cons it2 rest2 =>
          simp only [prepAlloc, List.mem_cons] at h
          rcases h with h | h
          · exact ⟨it, _, h⟩
          · exact ih _ L h

theorem prepLines_mem {inv : SalesInvoice} {L : PreppedLine}
    (h : L ∈ prepLines inv) : ∃ defR it pro, L = mkLine defR it pro := by
  unfold prepLines at h
  split at h
  · obtain ⟨it, pro, hL⟩ := prepAlloc_mem _ _ _ _ _ _ h
    exact ⟨_, it, pro, hL⟩
  · obtain ⟨it, _, hL⟩ := List.mem_map.mp h
    exact ⟨_, it, 0, hL.symm⟩

theorem mkLine_lineExcl_grid (defR : ℚ) (it : Item) (pro : ℚ) :
    Grid3 (mkLine defR it pro).lineExcl := grid3_q3 _

theorem mkLine_lineVat_grid (defR : ℚ) (it : Item) (pro : ℚ) :
    Grid3 (mkLine defR it pro).lineVat := grid3_q3 _

theorem mkLine_lineSpecial_grid (defR : ℚ) (it : Item) (pro : ℚ) :
    Grid3 (mkLine defR it pro).lineSpecial := grid3_q3 _

theorem totalExclOf_grid (inv : SalesInvoice) : Grid3 (totalExclOf inv) := by
  apply grid3_listSum
  intro x hx
  obtain ⟨L, hL, rfl⟩ := List.mem_map.mp hx
  obtain ⟨defR, it, pro, rfl⟩ := prepLines_mem hL
  exact mkLine_lineExcl_grid defR it pro

theorem totalVatOf_grid (inv : SalesInvoice) : Grid3 (totalVatOf inv) := by
  apply grid3_listSum
  intro x hx
  obtain ⟨L, hL, rfl⟩ := List.mem_map.mp hx
  obtain ⟨defR, it, pro, rfl⟩ := prepLines_mem hL
  exact mkLine_lineVat_grid defR it pro

theorem totalSpecialOf_grid (inv : SalesInvoice) : Grid3 (totalSpecialOf inv) := by
  apply grid3_listSum
  intro x hx
  obtain ⟨L, hL, rfl⟩ := List.mem_map.mp hx
  obtain ⟨defR, it, pro, rfl⟩ := prepLines_mem hL
  exact mkLine_lineSpecial_grid defR it pro

/-- `tax_exclusive` quantizes an already-quantized sum: it equals the sum. -/
theorem taxExclusiveOf_eq (inv : SalesInvoice) :
    taxExclusiveOf inv = totalExclOf inv := q3_of_grid3 (totalExclOf_grid inv)

theorem taxTotalAmtOf_eq (inv : SalesInvoice) :
    taxTotalAmtOf inv = totalVatOf inv + totalSpecialOf inv :=
  q3_of_grid3 ((totalVatOf_grid inv).add (totalSpecialOf_grid inv))

theorem taxInclusiveOf_eq (inv : SalesInvoice) :
    taxInclusiveOf inv = totalExclOf inv + (totalVatOf inv + totalSpecialOf inv) := by
  unfold taxInclusiveOf
  rw [taxExclusiveOf_eq, taxTotalAmtOf_eq]
  exact q3_of_grid3 ((totalExclOf_grid inv).add
    ((totalVatOf_grid inv).add (totalSpecialOf_grid inv)))

theorem taxInclusiveOf_grid (inv : SalesInvoice) : Grid3 (taxInclusiveOf inv) :=
  grid3_q3 _

/-! ## Concrete inputs for witnesses and counterexamples -/

/-- Settings with a digit activity number and a valid seller tax number. -/
def exSettings : Settings := { activityNumber := "123", sellerTaxNumber := "12345" }

/-- A plain one-unit item with the given net amount and no taxes. -/
def mkNetItem (n : ℚ) : Item :=
  { qty := 1, rate := n, netRate := n, amount := n, netAmount := n,
    discountAmount := 0, itemTaxRates := [] }

/-- A neutral, fully-populated invoice record to derive examples from. -/
def baseInv : SalesInvoice :=
  { name := "SINV-001", currency := "JOD", remarks := "", isReturn := 0,
    returnAgainst := "", baseGrandTotal := 0, outstandingAmount := 0,
    paidAmount := 0, grandTotal := 0, isPos := false, discountAmount := 0,
    totalTaxesAndCharges := 0, roundedTotal := 0, roundingAdjustment := 0,
    jofotaraUuid := "", jofotaraIcv := 0, hasUuidField := true,
    hasIcvField := false, companyName := "Co", companyTaxId := "12345",
    customerTaxId := "", paymentModes := [], taxRates := [], items := [] }

/-! ## Claim C5 — `_q3` / `_q` on invalid numeric input -/

/-- C5 counterexample: the claim says the quantization operation coerces a
non-numeric string to zero instead of raising, for *every* input; but
transform.py's `_q3` has no exception handler, so `_q3("abc")` raises
`InvalidOperation` (modelled as `Except.error`). -/
theorem c5_counterexample : q3Py (PyVal.str "abc") = Except.error () := rfl

/-- C5 (amended): invoices.py's `_q` always returns an exact 3-decimal
value and coerces any unparseable input to zero; transform.py's `_q3`
coerces only falsy inputs (via `x or 0`) and raises on a non-numeric
non-empty string. -/
theorem c5_quantization_amended (x : PyVal) :
    Grid3 (qPy x) ∧ (decimalOfPy x = Option.none → qPy x = 0) ∧
      (decimalOfPy (pyOrZero x) = Option.none → q3Py x = Except.error ()) := by
  refine ⟨?_, ?_, ?_⟩
  · unfold qPy
    cases hd : decimalOfPy x with
    | none => exact ⟨0, by norm_num⟩
    | some q => exact grid3_q3 q
  · intro h
    unfold qPy
    rw [h]
  · intro h
    unfold q3Py
    rw [h]

/-- C5 witness: `_q("xyz")` is coerced to zero. -/
theorem c5_quantization_witness : qPy (PyVal.str "xyz") = 0 :=
  (c5_quantization_amended (PyVal.str "xyz")).2.1 rfl

/-! ## Claim C8 — stable UUID across rebuilds -/

/-- Extracting the UUID of a successful `generate_ubl_xml_sales` run. -/
theorem generateUblXmlSales_uuid {s : Settings} {inv : SalesInvoice}
    {fresh : String} {b : SalesBuilt}
    (h : generateUblXmlSales s inv fresh = .ok b) :
    b.uuid = (uuidIcv inv fresh).1.1 := by
  unfold generateUblXmlSales at h
  cases hse : sellerInfo s inv with
  | error e => rw [hse] at h; exact absurd h (by simp)
  | ok st =>
      rw [hse] at h
      have h2 : Except.ok (salesCore inv fresh st) = Except.ok b := h
      rw [← Except.ok.inj h2]
      rfl

/-- C8 (confirmed): starting from a record that either already carries a
UUID or has the custom UUID field installed (as `install.py` guarantees),
building twice without external mutation yields the same UUID: the first
build persists the minted value (`frappe.generate_hash` values are
non-empty), the second returns it.  transform.py's builder is a pure
function of the record, so its UUID is trivially stable as well. -/
theorem c8_uuid_idempotent (inv : SalesInvoice) (f1 f2 : String)
    (h : inv.hasUuidField = true ∨ inv.jofotaraUuid ≠ "") (hf : f1 ≠ "") :
    (uuidIcv ((uuidIcv inv f1).2) f2).1.1 = (uuidIcv inv f1).1.1 ∧
    (∀ s b1 b2, generateUblXmlSales s inv f1 = .ok b1 →
      generateUblXmlSales s ((uuidIcv inv f1).2) f2 = .ok b2 →
      b2.uuid = b1.uuid) ∧
    (∀ s d1 d2, buildInvoiceXml s inv = .ok d1 → buildInvoiceXml s inv = .ok d2 →
      d1.uuid = d2.uuid) := by
  have key : (uuidIcv ((uuidIcv inv f1).2) f2).1.1 = (uuidIcv inv f1).1.1 := by
    show uuidOf (persistIcv inv f1) f2 = uuidOf inv f1
    by_cases he : inv.jofotaraUuid = ""
    · have hH : inv.hasUuidField = true := by
        rcases h with h | h
        · exact h
        · exact absurd he h
      unfold persistIcv persistUuid uuidOf
      simp only [he, hH, ne_eq, not_true_eq_false, ite_false, and_self, ite_true,
        not_false_eq_true]
      split_ifs <;> simp [hf]
    · unfold persistIcv persistUuid uuidOf
      simp only [he, and_false, false_and, ite_false, ne_eq, not_false_eq_true,
        ite_true, if_neg]
      split_ifs <;> simp [he]
  refine ⟨key, ?_, ?_⟩
  · intro s b1 b2 h1 h2
    rw [generateUblXmlSales_uuid h1, generateUblXmlSales_uuid h2]
    exact key
  · intro s d1 d2 h1 h2
    rw [buildInvoiceXml_ok h1, buildInvoiceXml_ok h2]

/-- C8 witness: a record with the UUID custom field and no stored UUID —
the UUID minted by the first build is returned again by the second. -/
theorem c8_uuid_witness :
    (uuidIcv ((uuidIcv baseInv "hash-one").2) "hash-two").1.1
      = (uuidIcv baseInv "hash-one").1.1 :=
  (c8_uuid_idempotent baseInv "hash-one" "hash-two" (Or.inl rfl)
    (by decide)).1

/-! ## Claim C9 — credit-note classification -/

theorem isCredit_iff (inv : SalesInvoice) :
    isCredit inv = true ↔
      (inv.isReturn = 1 ∨ inv.returnAgainst ≠ "" ∨ inv.baseGrandTotal < 0) := by
  simp [isCredit, or_assoc]

/-- C9 (confirmed): `build_invoice_xml` emits document-type code 381
exactly when `is_return == 1`, or `return_against` is non-empty, or
`base_grand_total` is negative; otherwise 388. -/
theorem c9_credit_note_code (s : Settings) (inv : SalesInvoice) (d : BuiltDoc)
    (hb : buildInvoiceXml s inv = .ok d) :
    d.invTypeCode = "381" ↔
      (inv.isReturn = 1 ∨ inv.returnAgainst ≠ "" ∨ inv.baseGrandTotal < 0) := by
  rw [buildInvoiceXml_ok hb]
  show (if isCredit inv then "381" else "388") = "381" ↔ _
  rw [← isCredit_iff]
  by_cases hc : isCredit inv
  · simp [hc]
  · simp [hc]

/-- C9 witness: a negative grand total with `is_return = 0` and no
`return_against` is still classified as a credit note (381). -/
theorem c9_credit_note_witness :
    (buildCore exSettings { baseInv with baseGrandTotal := -5 }).invTypeCode
      = "381" :=
  (c9_credit_note_code exSettings { baseInv with baseGrandTotal := -5 } _
    (buildInvoiceXml_ok_of _ (by decide))).mpr
    (Or.inr (Or.inr (by norm_num [baseInv])))

/-! ## Claim C7 — payment-method resolution -/

/-- The invoice that shows the claim's three conditions are not
exhaustive: not POS, nothing paid, large outstanding balance, but one
payment row with mode "Visa". -/
def c7CexInv : SalesInvoice :=
  { baseInv with grandTotal := 100, outstandingAmount := 100,
                 paymentModes := ["Visa"] }

/-- C7 counterexample: `_is_cash_invoice` returns cash for an invoice that
is not point-of-sale, whose paid amount does not cover the grand total,
and whose outstanding amount is far from zero — because a cash-like
payment mode ("Visa") is present, a fourth condition the claim omits. -/
theorem c7_cash_counterexample :
    isCashInvoice c7CexInv = true ∧
    c7CexInv.isPos = false ∧
    ¬(c7CexInv.paidAmount ≥ c7CexInv.grandTotal - 1/1000) ∧
    ¬(|c7CexInv.outstandingAmount| < 1/1000) := by
  refine ⟨?_, rfl, ?_, ?_⟩
  · have hm : cashModes.contains (lowerAscii (pyStrip "Visa")) = true := by decide
    simp only [isCashInvoice, Bool.or_eq_true, List.any_eq_true]
    exact Or.inr ⟨"Visa", by simp [c7CexInv, baseInv], hm⟩
  · show ¬((0 : ℚ) ≥ 100 - 1/1000)
    norm_num
  · show ¬(|(100 : ℚ)| < 1/1000)
    norm_num

/-- C7 (amended): `_is_cash_invoice` is cash exactly when POS, or paid
covers the grand total (to 1e-3), or outstanding is within 1e-3 of zero,
**or some payment row's mode is cash-like**; `build_invoice_xml`'s
payment code is `"011"` exactly when outstanding ≤ 1e-4 or POS; and a
fully paid, non-return invoice gets payment code `"011"` with
document-type code 388. -/
theorem c7_payment_amended (s : Settings) (inv : SalesInvoice) (d : BuiltDoc)
    (hb : buildInvoiceXml s inv = .ok d) :
    (isCashInvoice inv = true ↔
      (inv.isPos = true ∨ inv.paidAmount ≥ inv.grandTotal - 1/1000 ∨
        |inv.outstandingAmount| < 1/1000 ∨
        ∃ m ∈ inv.paymentModes, cashModes.contains (lowerAscii (pyStrip m)) = true)) ∧
    (d.payCode = "011" ↔ (inv.outstandingAmount ≤ 1/10000 ∨ inv.isPos = true)) ∧
    (inv.outstandingAmount = 0 → inv.isReturn = 0 → inv.returnAgainst = "" →
      0 ≤ inv.baseGrandTotal → d.payCode = "011" ∧ d.invTypeCode = "388") := by
  rw [buildInvoiceXml_ok hb]
  have hpc : (buildCore s inv).payCode = paymentMethodCode inv := rfl
  refine ⟨?_, ?_, ?_⟩
  · simp [isCashInvoice, List.any_eq_true, or_assoc]
  · rw [hpc]
    unfold paymentMethodCode
    by_cases hc : (inv.outstandingAmount ≤ 1/10000 ∨ inv.isPos = true)
    · rw [if_pos (by simpa only [Bool.or_eq_true, decide_eq_true_eq] using hc)]
      exact iff_of_true rfl hc
    · rw [if_neg (by simpa only [Bool.or_eq_true, decide_eq_true_eq] using hc)]
      exact iff_of_false (by decide) hc
  · intro hout hret hra hgt
    constructor
    · have hcb : (decide (inv.outstandingAmount ≤ 1/10000) || inv.isPos) = true := by
        rw [hout]
        simp only [Bool.or_eq_true, decide_eq_true_eq]
        left
        norm_num
      rw [hpc]
      unfold paymentMethodCode
      rw [if_pos hcb]
    · show (if isCredit inv then "381" else "388") = "388"
      rw [if_neg]
      simp only [isCredit, Bool.or_eq_true, beq_iff_eq, bne_iff_ne, ne_eq,
        decide_eq_true_eq, not_or]
      refine ⟨⟨?_, ?_⟩, ?_⟩
      · omega
      · simp [hra]
      · exact not_lt.mpr hgt

/-- C7 witness: fully paid (`outstanding == 0`), not a return — payment
method resolves to cash (`"011"`), document type to invoice (388). -/
theorem c7_payment_witness :
    (buildCore exSettings { baseInv with grandTotal := 100, paidAmount := 100 }).payCode
        = "011" ∧
      (buildCore exSettings
        { baseInv with grandTotal := 100, paidAmount := 100 }).invTypeCode = "388" :=
  (c7_payment_amended exSettings _ _
      (buildInvoiceXml_ok_of _ (by decide))).2.2
    (by norm_num [baseInv]) rfl rfl (by norm_num [baseInv])

/-! ## Claim C10 — reconciliation status -/

theorem pyOrChain_truthy (l : List (Option JVal)) :
    jTruthyO (pyOrChain l) = true ↔ ∃ v ∈ l, jTruthyO v = true := by
  induction l with
  | nil => simp [pyOrChain, jTruthyO]
  | cons v t ih =>
      cases t with
      | nil => simp [pyOrChain]
      | cons w t2 =>
          by_cases hv : jTruthyO v = true
          · simp [pyOrChain, hv]
          · simp [pyOrChain, hv, ih]

/-- C10 (confirmed): the reconciliation status is `"Submitted"` exactly
when some uuid-like key or some qr-like key holds a truthy (non-empty)
value, or `"success"` occurs in the lowercased serialized body; in every
other case it is `"Error"`. -/
theorem c10_submit_status (resp : List (String × JVal)) :
    submitStatus resp =
      if (∃ k ∈ uuidKeys, jTruthyO (jGet resp k) = true) ∨
         (∃ k ∈ qrKeys, jTruthyO (jGet resp k) = true) ∨
         strHas (lowerAscii (jsonOf resp)) "success" = true
      then "Submitted" else "Error" := by
  have hcond :
      ((jTruthyO (pyOrChain (uuidKeys.map (jGet resp))) ||
        jTruthyO (pyOrChain (qrKeys.map (jGet resp))) ||
        strHas (lowerAscii (jsonOf resp)) "success") = true) ↔
      ((∃ k ∈ uuidKeys, jTruthyO (jGet resp k) = true) ∨
       (∃ k ∈ qrKeys, jTruthyO (jGet resp k) = true) ∨
       strHas (lowerAscii (jsonOf resp)) "success" = true) := by
    simp [Bool.or_eq_true, or_assoc, pyOrChain_truthy]
  show (if (jTruthyO (pyOrChain (uuidKeys.map (jGet resp))) ||
        jTruthyO (pyOrChain (qrKeys.map (jGet resp))) ||
        strHas (lowerAscii (jsonOf resp)) "success") = true
      then "Submitted" else "Error") = _
  rw [if_congr hcond rfl rfl]

/-! ## Claim C2 — tax-category suppression in the header -/

/-- An invoice with one untaxed line: every computed tax is zero. -/
def c2CexInv : SalesInvoice := { baseInv with items := [mkNetItem 100] }

/-- C2 counterexample: the claim says a category with zero aggregate tax
never appears in the header tax-total block, but the VAT subtotal is
emitted unconditionally — here with aggregate tax 0 it still appears. -/
theorem c2_suppression_counterexample :
    (buildInvoiceXml exSettings c2CexInv).map
        (fun d => (d.totalVat, d.headerSubtotals.map Subtotal.scheme))
      = .ok ((0 : ℚ), ["VAT"]) := by
  rw [buildInvoiceXml_ok_of c2CexInv (by decide)]
  simp only [Except.map]
  norm_num [buildCore, headerSubtotalsOf, totalVatOf, totalSpecialOf,
    taxableVatSumOf, taxableSpecialSumOf, prepLines, prepAlloc, mkLine,
    rateFold, q3, defaultRatio, sumNetBase, baseNetAmount, baseNetRate,
    c2CexInv, mkNetItem, baseInv]

/-- C2 (amended): only the Special category is suppressed — the header
block consists of the VAT subtotal (always emitted, whatever its amount)
followed by the Special subtotal exactly when the aggregate special tax
is positive. -/
theorem c2_suppression_amended (s : Settings) (inv : SalesInvoice)
    (d : BuiltDoc) (hb : buildInvoiceXml s inv = .ok d) :
    d.headerSubtotals =
      { scheme := "VAT", taxable := d.taxableVatSum, amount := d.totalVat } ::
        (if d.totalSpecial > 0 then
          [{ scheme := "Special", taxable := d.taxableSpecialSum,
             amount := d.totalSpecial }]
        else []) := by
  rw [buildInvoiceXml_ok hb]
  rfl

/-- C2 witness: the characterization instantiated at the zero-tax
single-line invoice. -/
theorem c2_suppression_witness :
    (buildCore exSettings c2CexInv).headerSubtotals =
      { scheme := "VAT", taxable := (buildCore exSettings c2CexInv).taxableVatSum,
        amount := (buildCore exSettings c2CexInv).totalVat } ::
        (if (buildCore exSettings c2CexInv).totalSpecial > 0 then
          [{ scheme := "Special",
             taxable := (buildCore exSettings c2CexInv).taxableSpecialSum,
             amount := (buildCore exSettings c2CexInv).totalSpecial }]
        else []) :=
  c2_suppression_amended exSettings c2CexInv _ (buildInvoiceXml_ok_of _ (by decide))

/-! ## Claim C6 — top-level element order -/

/-- A credit-note invoice (`is_return = 1`) with one line. -/
def c6CexInv : SalesInvoice :=
  { baseInv with isReturn := 1, items := [mkNetItem 5] }

/-- C6 counterexample: the claim places a credit-note back-reference among
the serialized children of a credit note, but `build_invoice_xml` never
emits one — this document is classified 381 yet contains no
billing-reference child. -/
theorem c6_ordering_counterexample :
    (buildInvoiceXml exSettings c6CexInv).map
        (fun d => (d.invTypeCode, decide (Tag.billingReference ∈ d.children)))
      = .ok ("381", false) := by
  rw [buildInvoiceXml_ok_of c6CexInv (by decide)]
  simp only [Except.map]
  have hcred : isCredit c6CexInv = true := by
    simp [isCredit, c6CexInv, baseInv]
  have hchild : decide (Tag.billingReference ∈ childrenOf c6CexInv) = false := by
    simp [childrenOf, c6CexInv, baseInv, pyStrip, isWs]
  show Except.ok ((if isCredit c6CexInv then "381" else "388"),
      decide (Tag.billingReference ∈ childrenOf c6CexInv)) = _
  rw [hcred, hchild]
  rfl

/-- C6 (amended): the top-level children always appear in the fixed order
identity block (ID, UUID, issue date, type code, optional note, currency
codes, ICV reference) → supplier party → customer party →
activity-number (seller-supplier) party → tax total → monetary total →
invoice lines, with lines after totals; no credit-note back-reference is
ever emitted, even for credit notes. -/
theorem c6_ordering_amended (s : Settings) (inv : SalesInvoice) (d : BuiltDoc)
    (hb : buildInvoiceXml s inv = .ok d) :
    d.children =
      [Tag.cbcId, Tag.cbcUuid, Tag.issueDate, Tag.invoiceTypeCode] ++
        (if pyStrip inv.remarks ≠ "" then [Tag.note] else []) ++
        [Tag.documentCurrencyCode, Tag.taxCurrencyCode,
         Tag.additionalDocumentReference, Tag.accountingSupplierParty,
         Tag.accountingCustomerParty, Tag.sellerSupplierParty,
         Tag.taxTotal, Tag.legalMonetaryTotal] ++
        List.replicate inv.items.length Tag.invoiceLine ∧
      Tag.billingReference ∉ d.children := by
  rw [buildInvoiceXml_ok hb]
  refine ⟨rfl, ?_⟩
  show Tag.billingReference ∉ childrenOf inv
  unfold childrenOf
  split <;> simp [List.mem_append, List.mem_replicate]

/-- C6 witness: the order characterization instantiated at a one-line
invoice. -/
theorem c6_ordering_witness :
    (buildCore exSettings { baseInv with items := [mkNetItem 2] }).children =
      [Tag.cbcId, Tag.cbcUuid, Tag.issueDate, Tag.invoiceTypeCode] ++
        (if pyStrip { baseInv with items := [mkNetItem 2] }.remarks ≠ ""
         then [Tag.note] else []) ++
        [Tag.documentCurrencyCode, Tag.taxCurrencyCode,
         Tag.additionalDocumentReference, Tag.accountingSupplierParty,
         Tag.accountingCustomerParty, Tag.sellerSupplierParty,
         Tag.taxTotal, Tag.legalMonetaryTotal] ++
        List.replicate { baseInv with items := [mkNetItem 2] }.items.length
          Tag.invoiceLine ∧
      Tag.billingReference ∉
        (buildCore exSettings { baseInv with items := [mkNetItem 2] }).children :=
  c6_ordering_amended exSettings _ _ (buildInvoiceXml_ok_of _ (by decide))

/-! ## Claim C1 — discount conservation -/

theorem map_mkLine_zero_sum (defR : ℚ) (l : List Item) :
    ((l.map (fun it => mkLine defR it 0)).map PreppedLine.proRata).sum = 0 := by
  induction l with
  | nil => simp
  | cons a t ih =>
      simp only [List.map_cons, List.sum_cons, mkLine_proRata]
      rw [ih]
      norm_num

/-- Four equal lines and a 0.002 discount: each of the three rounded
shares is round3(0.0005) = 0.001, the remainder is negative and clamped
to zero. -/
def c1CexInv : SalesInvoice :=
  { baseInv with discountAmount := 2/1000,
                 items := [mkNetItem 1, mkNetItem 1, mkNetItem 1, mkNetItem 1] }

/-- C1 counterexample: with discount `D = 0.002` over four lines of net 1
each, the allocated shares sum to 0.003 ≠ D — the rounded shares of the
first three lines overshoot, and the last line's share is
`disc_left if disc_left > 0 else 0`, clamping the negative remainder to 0
rather than absorbing it. -/
theorem c1_conservation_counterexample :
    (buildInvoiceXml exSettings c1CexInv).map
        (fun d => (d.lines.map PreppedLine.proRata).sum) = .ok ((3 : ℚ)/1000) ∧
      c1CexInv.discountAmount = 2/1000 ∧ ((3 : ℚ)/1000 ≠ 2/1000) := by
  refine ⟨?_, by norm_num [c1CexInv, baseInv], by norm_num⟩
  rw [buildInvoiceXml_ok_of c1CexInv (by decide)]
  simp only [Except.map]
  norm_num [buildCore, prepLines, prepAlloc, mkLine, rateFold, q3,
    defaultRatio, sumNetBase, baseNetAmount, baseNetRate, c1CexInv,
    mkNetItem, baseInv]

/-- C1 (amended): the allocated shares sum to exactly `D` whenever the
remainder `D − Σ(rounded shares of the non-last lines)` is nonnegative
(in particular whenever rounding does not overshoot); when the remainder
is negative the last line is clamped to zero and the sum exceeds `D`. -/
theorem c1_conservation_amended (s : Settings) (inv : SalesInvoice)
    (d : BuiltDoc) (hb : buildInvoiceXml s inv = .ok d)
    (hne : inv.items ≠ []) (hS : 0 < sumNetBase inv)
    (hD : 0 ≤ inv.discountAmount)
    (hrem : 0 ≤ inv.discountAmount - nonLastShareSum inv) :
    (d.lines.map PreppedLine.proRata).sum = inv.discountAmount := by
  rw [buildInvoiceXml_ok hb]
  show ((prepLines inv).map PreppedLine.proRata).sum = _
  unfold prepLines
  by_cases hD0 : inv.discountAmount > 0
  · rw [if_pos ⟨hD0, hS⟩]
    rw [prepAlloc_proRata_sum (defaultRatio inv) (sumNetBase inv)
      inv.discountAmount inv.items inv.discountAmount hne]
    have hsum : (inv.items.dropLast.map
        (nonLastShare (sumNetBase inv) inv.discountAmount)).sum
        = nonLastShareSum inv := rfl
    rw [hsum, clampPos_of_nonneg hrem]
    ring
  · rw [if_neg (fun h => hD0 h.1)]
    have hD0' : inv.discountAmount = 0 := le_antisymm (not_lt.mp hD0) hD
    rw [hD0', map_mkLine_zero_sum]

/-- The spec's own allocation scenario: nets 30 and 70, discount 10. -/
def c1WitInv : SalesInvoice :=
  { baseInv with
      discountAmount := 10
      items := [mkNetItem 30, mkNetItem 70] }

/-- C1 witness: two lines with nets 30 and 70 and discount 10 — the
shares are 3 and 7 and sum to exactly 10 (the spec's own scenario). -/
theorem c1_conservation_witness :
    ((buildCore exSettings c1WitInv).lines.map PreppedLine.proRata).sum
      = c1WitInv.discountAmount :=
  c1_conservation_amended exSettings _ _ (buildInvoiceXml_ok_of _ (by decide))
    (by simp [c1WitInv, baseInv])
    (by norm_num [sumNetBase, baseNetAmount, c1WitInv, baseInv, mkNetItem])
    (by norm_num [c1WitInv, baseInv])
    (by norm_num [nonLastShareSum, nonLastShare, sumNetBase, baseNetAmount,
      q3, c1WitInv, baseInv, mkNetItem])

/-! ## Claim C3 — totals reconciliation -/

/-- One line of net 100 carrying a *negative* special rate: its aggregate
special tax is −16, which the header suppresses but the tax total keeps. -/
def c3CexItem : Item :=
  { mkNetItem 100 with itemTaxRates := [("special tax", -16)] }

def c3CexInv : SalesInvoice := { baseInv with items := [c3CexItem] }

/-- C3 counterexample: with an aggregate special tax of −16 the Special
subtotal is suppressed (`total_special > 0` fails) yet still included in
the tax-inclusive amount: taxInclusive = 84 while
taxExclusive + Σ(emitted subtotal amounts) = 100 + 0. -/
theorem c3_totals_counterexample :
    (buildInvoiceXml exSettings c3CexInv).map
        (fun d => (d.taxInclusive, d.taxExclusive,
          (d.headerSubtotals.map Subtotal.amount).sum))
      = .ok ((84 : ℚ), (100 : ℚ), (0 : ℚ)) ∧ ((84 : ℚ) ≠ 100 + 0) := by
  have hsp : strHas (lowerAscii "special tax") "special" = true := by decide
  refine ⟨?_, by norm_num⟩
  rw [buildInvoiceXml_ok_of c3CexInv (by decide)]
  simp only [Except.map]
  norm_num [buildCore, taxInclusiveOf, taxExclusiveOf, taxTotalAmtOf,
    headerSubtotalsOf, totalVatOf, totalSpecialOf, taxableVatSumOf,
    taxableSpecialSumOf, totalExclOf, prepLines, prepAlloc, mkLine,
    rateFold, hsp, q3, defaultRatio, sumNetBase, baseNetAmount,
    baseNetRate, c3CexInv, c3CexItem, mkNetItem, baseInv]

/-- C3 (amended): provided the aggregate special tax is nonnegative (no
negative special rates) and the record's rounded total is an exact
3-decimal amount, the emitted totals reconcile exactly:
`taxInclusive = taxExclusive + Σ(emitted subtotal amounts)` and
`payable = taxInclusive + roundingAdjustment`, the adjustment being 0
when the record supplies no rounded total. -/
theorem c3_totals_amended (s : Settings) (inv : SalesInvoice) (d : BuiltDoc)
    (hb : buildInvoiceXml s inv = .ok d) (hrt : Grid3 inv.roundedTotal)
    (hsp : 0 ≤ d.totalSpecial) :
    d.taxInclusive = d.taxExclusive +
        (d.headerSubtotals.map Subtotal.amount).sum ∧
      d.payableAmount = d.taxInclusive + d.payableRounding := by
  rw [buildInvoiceXml_ok hb] at hsp ⊢
  have hsp' : (0 : ℚ) ≤ totalSpecialOf inv := hsp
  constructor
  · show taxInclusiveOf inv = taxExclusiveOf inv +
      ((headerSubtotalsOf inv).map Subtotal.amount).sum
    unfold headerSubtotalsOf
    by_cases hpos : totalSpecialOf inv > 0
    · rw [if_pos hpos]
      simp only [List.map_cons, List.map_nil, List.sum_cons, List.sum_nil]
      rw [taxInclusiveOf_eq, taxExclusiveOf_eq]
      ring
    · have h0 : totalSpecialOf inv = 0 := le_antisymm (not_lt.mp hpos) hsp'
      rw [if_neg hpos]
      simp only [List.map_cons, List.map_nil, List.sum_cons, List.sum_nil]
      rw [taxInclusiveOf_eq, taxExclusiveOf_eq, h0]
  · show payableAmountOf inv = taxInclusiveOf inv + payableRoundingOf inv
    unfold payableAmountOf payableRoundingOf
    by_cases hur : useRounding inv
    · rw [if_pos hur, if_pos hur, q3_of_grid3 hrt,
        q3_of_grid3 (hrt.sub (taxInclusiveOf_grid inv))]
      ring
    · rw [if_neg hur, if_neg hur, q3_of_grid3 (taxInclusiveOf_grid inv)]
      ring

/-- The spec's own scenario: one line, qty 2, unit net price 10, explicit
16% VAT — lineNet 20, tax 3.2, taxInclusive 23.2, payable 23.2. -/
def c3WitItem : Item :=
  { qty := 2, rate := 10, netRate := 10, amount := 20, netAmount := 20,
    discountAmount := 0, itemTaxRates := [("vat", 16)] }

def c3WitInv : SalesInvoice := { baseInv with items := [c3WitItem] }

/-- C3 witness: the reconciliation equations instantiated at the 16%-VAT
single-line invoice (whose special tax is zero and which has no rounded
total). -/
theorem c3_totals_witness :
    (buildCore exSettings c3WitInv).taxInclusive
        = (buildCore exSettings c3WitInv).taxExclusive +
          ((buildCore exSettings c3WitInv).headerSubtotals.map
            Subtotal.amount).sum ∧
      (buildCore exSettings c3WitInv).payableAmount
        = (buildCore exSettings c3WitInv).taxInclusive +
          (buildCore exSettings c3WitInv).payableRounding := by
  have h1 : strHas (lowerAscii "vat") "special" = false := by decide
  have h2 : strHas (lowerAscii "vat") "خاص" = false := by decide
  have h3 : strHas (lowerAscii "vat") "vat" = true := by decide
  refine c3_totals_amended exSettings c3WitInv _
    (buildInvoiceXml_ok_of _ (by decide)) ⟨0, by norm_num [c3WitInv, baseInv]⟩ ?_
  show (0 : ℚ) ≤ totalSpecialOf c3WitInv
  norm_num [totalSpecialOf, prepLines, prepAlloc, mkLine, rateFold, h1, h2, h3,
    q3, defaultRatio, sumNetBase, baseNetAmount, baseNetRate, c3WitInv,
    c3WitItem, mkNetItem, baseInv]

/-! ## Claim C4 — seller tax number validation -/

/-- Settings without a seller tax number. -/
def c4Settings : Settings := { activityNumber := "123", sellerTaxNumber := "" }

/-- An invoice whose company has no tax id either. -/
def c4CexInv : SalesInvoice := { baseInv with companyTaxId := "" }

/-- C4 counterexample: the claim says document building fails whenever the
digit-stripped seller tax number is not 1-15 digits long, but
`build_invoice_xml` (transform.py) performs no such validation — with an
empty seller tax number (0 digits) it still produces a document. -/
theorem c4_validation_counterexample :
    buildInvoiceXml c4Settings c4CexInv = .ok (buildCore c4Settings c4CexInv) ∧
      (buildCore c4Settings c4CexInv).supplierTax = "" ∧
      ¬(1 ≤ (digitsOnly (companyTax c4Settings c4CexInv)).length ∧
        (digitsOnly (companyTax c4Settings c4CexInv)).length ≤ 15) :=
  ⟨buildInvoiceXml_ok_of _ (by decide), by decide, by decide⟩

/-- C4 (amended): the 1-15-digit seller-tax-number validation lives in
`_seller_info`, used by the invoices.py builders: `generate_ubl_xml_sales`
fails with a validation error (producing no document) exactly when the
digit-stripped seller tax number has length outside 1-15, and
`"JO-12-345"` normalizes to `"12345"` (5 digits, passing); transform.py's
`build_invoice_xml` performs no seller-tax validation. -/
theorem c4_seller_validation_amended (s : Settings) (inv : SalesInvoice)
    (fresh : String) :
    ((∃ e, generateUblXmlSales s inv fresh = .error e) ↔
      ¬(1 ≤ (sellerTaxDigits s inv).length ∧
        (sellerTaxDigits s inv).length ≤ 15)) ∧
      digitsOnly "JO-12-345" = "12345" := by
  refine ⟨?_, by decide⟩
  unfold generateUblXmlSales sellerInfo
  by_cases hlen : (1 ≤ (sellerTaxDigits s inv).length ∧
      (sellerTaxDigits s inv).length ≤ 15)
  · rw [if_pos hlen]
    simp [hlen]
  · rw [if_neg hlen]
    simp [hlen]

/-- C4 witness: a seller tax number that is present but empty of digits
fails the sales builder, and `"JO-12-345"` passes with 5 digits. -/
theorem c4_seller_validation_witness :
    (∃ e, generateUblXmlSales c4Settings c4CexInv "h" = .error e) ∧
      digitsOnly "JO-12-345" = "12345" :=
  ⟨((c4_seller_validation_amended c4Settings c4CexInv "h").1).mpr (by decide),
   (c4_seller_validation_amended c4Settings c4CexInv "h").2⟩

end JoFotara
